import Mathlib

/-!
# Verification of two Biome lint rules

Shallow embedding of the two rule bodies of this repository:

* `crates/biome_js_analyze/src/lint/suspicious/use_valid_typeof.rs`
  (rule `UseValidTypeof`), and
* `crates/biome_js_analyze/src/lint/style/use_self_closing_elements.rs`
  (rule `UseSelfClosingElements`),

together with the fragments of the `biome_rowan` / `biome_js_syntax` /
`biome_js_factory` data model they read: tokens with leading/trailing
trivia, the expression shapes the typeof rule matches on, the JSX element
shapes the self-closing rule rewrites, and the factory constructors the
fixes call.  Fallible accessors (`SyntaxResult`, i.e. `.ok()?`) are
embedded as `Option`-valued fields, `?` as `Option` propagation.
-/

namespace Biome

/-! ## Trivia and tokens (biome_rowan) -/

/-- The kinds of trivia pieces the two rules can meet. -/
inductive TriviaPieceKind where
  | whitespace
  | newline
  | singleLineComment
  | multiLineComment
  deriving DecidableEq

/-- A trivia piece: its kind and its exact text.  The Rust side stores the
kind with a length and keeps the text inside the owning token's full text;
carrying the text on the piece (its length being `text.length`) is the same
information. -/
structure TriviaPiece where
  kind : TriviaPieceKind
  text : String
  deriving DecidableEq

/-- `TriviaPiece::whitespace(1)` together with the `' '` pushed onto the
token text at the same spot. -/
def TriviaPiece.whitespace1 : TriviaPiece :=
  { kind := .whitespace, text := " " }

/-- Concatenated text of a trivia list (`SyntaxTrivia::text`). -/
def triviaText (pieces : List TriviaPiece) : String :=
  String.join (pieces.map TriviaPiece.text)

/-- A byte span in the source (biome `TextRange`). -/
structure TextRange where
  start : Nat
  stop : Nat
  deriving DecidableEq

/-- A token: trimmed text, leading and trailing trivia, and the trimmed
range (`text_trimmed_range`).  `text_trimmed()` is the `text` field;
detached tokens built by the factory get range `⟨0, 0⟩`. -/
structure JsSyntaxToken where
  text : String
  leadingTrivia : List TriviaPiece
  trailingTrivia : List TriviaPiece
  textTrimmedRange : TextRange
  deriving DecidableEq

/-- `JsSyntaxToken::with_leading_trivia` restricted to the one use in the
rules: replacing the leading trivia wholesale. -/
def JsSyntaxToken.withLeadingTrivia (t : JsSyntaxToken) (pieces : List TriviaPiece) :
    JsSyntaxToken :=
  { t with leadingTrivia := pieces }

/-- `JsSyntaxToken::new_detached(kind, text, leading, trailing)`.  The Rust
call passes the full text (trivia text included); here the trimmed text and
the trivia pieces (each carrying its text) represent the same token. -/
def JsSyntaxToken.newDetached (text : String) (leading trailing : List TriviaPiece) :
    JsSyntaxToken :=
  { text, leadingTrivia := leading, trailingTrivia := trailing,
    textTrimmedRange := ⟨0, 0⟩ }

/-- The source token's full text: leading trivia, trimmed text, trailing
trivia. -/
def JsSyntaxToken.fullText (t : JsSyntaxToken) : String :=
  triviaText t.leadingTrivia ++ t.text ++ triviaText t.trailingTrivia

/-! ## Shared diagnostic / action envelope (biome_analyze) -/

/-- The part of `RuleDiagnostic` the two rules populate: range, title
message, notes and description. -/
structure RuleDiagnostic where
  range : TextRange
  message : String
  notes : List String
  description : Option String
  deriving DecidableEq

/-- `ActionCategory` restricted to the variant both rules use. -/
inductive ActionCategory where
  | quickFix
  deriving DecidableEq

/-- Fix applicability confidence. -/
inductive Applicability where
  | always
  | maybeIncorrect
  deriving DecidableEq

/-! ## Strings: the `str` operations the typeof rule calls -/

/-- `'"'` without a character literal. -/
def doubleQuoteChar : Char := Char.ofNat 34

/-- `'\x27'` (single quote) without a character literal. -/
def singleQuoteChar : Char := Char.ofNat 39

/-- Is the character one of the two quote characters of the Rust pattern
`['"', '\x27']`? -/
def isQuoteChar (c : Char) : Bool :=
  c = doubleQuoteChar || c = singleQuoteChar

/-- `s.trim_start_matches(['"', '\x27']).trim_end_matches(['"', '\x27'])`:
drop every leading and every trailing quote character. -/
def trimMatchesQuotes (s : String) : String :=
  String.mk (((s.data.dropWhile isQuoteChar).reverse.dropWhile isQuoteChar).reverse)

/-- Rust `str::to_lowercase`, modelled characterwise with `Char.toLower`. -/
def toLowercase (s : String) : String :=
  String.mk (s.data.map Char.toLower)

/-- Rust `str::ends_with(c)` for a single character: does the last
character equal `c`?  (Stated over the character list, which kernel
evaluation handles.) -/
def strEndsWithChar (s : String) (c : Char) : Bool :=
  s.data.getLast? = some c

/-- `' '` without a character literal. -/
def spaceChar : Char := Char.ofNat 32

def doubleQuoteStr : String := String.singleton doubleQuoteChar

def singleQuoteStr : String := String.singleton singleQuoteChar

/-! ## Expressions (biome_js_syntax), as far as `UseValidTypeof` reads them -/

/-- `JsBinaryOperator`: the four comparison operators the rule accepts and
a sample of the others it must ignore. -/
inductive JsBinaryOperator where
  | equality
  | strictEquality
  | inequality
  | strictInequality
  | lessThan
  | greaterThan
  | lessThanOrEqual
  | greaterThanOrEqual
  | plus
  | minus
  | times
  | divide
  | remainder
  | bitwiseAnd
  | bitwiseOr
  | leftShift
  deriving DecidableEq

/-- The `matches!` test of `UseValidTypeof::run` on the binary operator. -/
def isTypeofComparisonOperator : JsBinaryOperator → Bool
  | .equality => true
  | .strictEquality => true
  | .inequality => true
  | .strictInequality => true
  | _ => false

/-- `JsUnaryOperator`. -/
inductive JsUnaryOperator where
  | delete
  | void
  | typeof
  | unaryMinus
  | unaryPlus
  | bitwiseNot
  | logicalNot
  deriving DecidableEq

/-- `JsReferenceIdentifier`, as returned by `JsIdentifierExpression::name`;
`value_token` is fallible. -/
structure JsReferenceIdentifier where
  valueToken : Option JsSyntaxToken
  deriving DecidableEq

/-- The literal expressions: the rule only distinguishes string literals
(with their fallible value token) from every other literal kind. -/
inductive AnyJsLiteralExpression where
  | jsStringLiteralExpression (valueToken : Option JsSyntaxToken) (range : TextRange)
  | otherLiteral (range : TextRange)
  deriving DecidableEq

/-- `AstNode::range` on a literal expression. -/
def AnyJsLiteralExpression.range : AnyJsLiteralExpression → TextRange
  | .jsStringLiteralExpression _ r => r
  | .otherLiteral r => r

/-- The expression shapes `UseValidTypeof::run` matches on: unary
expressions (their fallible operator and range), literal expressions,
identifier expressions (their fallible reference identifier and range), and
every other expression kind collapsed to `otherExpression` with its
range. -/
inductive AnyJsExpression where
  | jsUnaryExpression (operator : Option JsUnaryOperator) (range : TextRange)
  | anyJsLiteralExpression (lit : AnyJsLiteralExpression)
  | jsIdentifierExpression (name : Option JsReferenceIdentifier) (range : TextRange)
  | otherExpression (range : TextRange)
  deriving DecidableEq

/-- `AstNode::range` on an expression. -/
def AnyJsExpression.range : AnyJsExpression → TextRange
  | .jsUnaryExpression _ r => r
  | .anyJsLiteralExpression l => l.range
  | .jsIdentifierExpression _ r => r
  | .otherExpression r => r

/-- `JsBinaryExpression` as the rule reads it: fallible left operand,
fallible operator, fallible right operand. -/
structure JsBinaryExpression where
  left : Option AnyJsExpression
  operator : Option JsBinaryOperator
  right : Option AnyJsExpression
  deriving DecidableEq

/-! ## `UseValidTypeof` -/

/-- `JsTypeName`: the fixed vocabulary of JS type names. -/
inductive JsTypeName where
  | undefined
  | object
  | boolean
  | number
  | string
  | function
  | symbol
  | bigInt
  deriving DecidableEq

/-- `JsTypeName::from_str`: construct a type name from its (lower-case)
textual spelling; any other string is rejected. -/
def JsTypeName.fromStr (s : String) : Option JsTypeName :=
  if s = "undefined" then some .undefined
  else if s = "object" then some .object
  else if s = "boolean" then some .boolean
  else if s = "number" then some .number
  else if s = "string" then some .string
  else if s = "function" then some .function
  else if s = "symbol" then some .symbol
  else if s = "bigint" then some .bigInt
  else none

/-- `JsTypeName::as_str`. -/
def JsTypeName.asStr : JsTypeName → String
  | .undefined => "undefined"
  | .object => "object"
  | .boolean => "boolean"
  | .number => "number"
  | .string => "string"
  | .function => "function"
  | .symbol => "symbol"
  | .bigInt => "bigint"

/-- `TypeofError`: the rule's diagnostic classification. -/
inductive TypeofError where
  | invalidLiteral (range : TextRange) (literal : String)
  | invalidExpression (range : TextRange)
  deriving DecidableEq

/-- `UseValidTypeof::State`. -/
abbrev UseValidTypeofState := TypeofError × Option (AnyJsExpression × JsTypeName)

/-- Body of the `(typeof-unary, literal)` / `(literal, typeof-unary)` match
arm of `UseValidTypeof::run`; `lit` is the literal side as an
`AnyJsExpression` (the `lit @` binding). -/
def UseValidTypeof.runTypeofLiteral (uop : Option JsUnaryOperator)
    (literalExpr : AnyJsLiteralExpression) : Option UseValidTypeofState :=
  match uop with
  | none => none
  | some op =>
    if op = JsUnaryOperator.typeof then
      match literalExpr with
      | .jsStringLiteralExpression valueToken _ =>
        match valueToken with
        | none => none
        | some tok =>
          let range := tok.textTrimmedRange
          let literal := toLowercase (trimMatchesQuotes tok.text)
          if (JsTypeName.fromStr literal).isSome then none
          else
            let suggestion := toLowercase literal
            some (TypeofError.invalidLiteral range literal,
              (JsTypeName.fromStr suggestion).map
                (fun typeName => (AnyJsExpression.anyJsLiteralExpression literalExpr, typeName)))
      | .otherLiteral _ =>
        some (TypeofError.invalidExpression literalExpr.range, none)
    else none

/-- Body of the `(typeof-unary, typeof-unary)` match arm. -/
def UseValidTypeof.runTypeofTypeof (lop rop : Option JsUnaryOperator)
    (leftRange rightRange : TextRange) : Option UseValidTypeofState :=
  match lop, rop with
  | some l, some r =>
    let isTypeofLeft := l = JsUnaryOperator.typeof
    let isTypeofRight := r = JsUnaryOperator.typeof
    if isTypeofLeft && !isTypeofRight then
      some (TypeofError.invalidExpression rightRange, none)
    else if isTypeofRight && !isTypeofLeft then
      some (TypeofError.invalidExpression leftRange, none)
    else none
  | _, _ => none

/-- Body of the `(typeof-unary, identifier)` / `(identifier, typeof-unary)`
match arm.  `idExpr` is the expression the `id @` binding names: the
identifier expression in the first operand order, but the unary expression
itself in the second (as in the source). -/
def UseValidTypeof.runTypeofIdentifier (uop : Option JsUnaryOperator)
    (name : Option JsReferenceIdentifier) (identRange : TextRange)
    (idExpr : AnyJsExpression) : Option UseValidTypeofState :=
  match uop with
  | none => none
  | some op =>
    if op = JsUnaryOperator.typeof then
      let suggestion := name.bind (fun nm =>
        nm.valueToken.bind (fun value =>
          let lowered := toLowercase value.text
          (JsTypeName.fromStr lowered).map (fun asType => (idExpr, asType))))
      some (TypeofError.invalidExpression identRange, suggestion)
    else none

/-- Body of the `(typeof-unary, other-expression)` fall-through arm. -/
def UseValidTypeof.runTypeofExpr (uop : Option JsUnaryOperator)
    (e : AnyJsExpression) : Option UseValidTypeofState :=
  match uop with
  | none => none
  | some op =>
    if op = JsUnaryOperator.typeof then
      some (TypeofError.invalidExpression e.range, none)
    else none

/-- The `match (&left, &right)` of `UseValidTypeof::run`, arm for arm and
in the source's order. -/
def UseValidTypeof.runOnOperands : AnyJsExpression → AnyJsExpression →
    Option UseValidTypeofState
  | .jsUnaryExpression uop _, .anyJsLiteralExpression l =>
    runTypeofLiteral uop l
  | .anyJsLiteralExpression l, .jsUnaryExpression uop _ =>
    runTypeofLiteral uop l
  | .jsUnaryExpression lop lr, .jsUnaryExpression rop rr =>
    runTypeofTypeof lop rop lr rr
  | .jsUnaryExpression uop _, .jsIdentifierExpression nm r =>
    runTypeofIdentifier uop nm r (AnyJsExpression.jsIdentifierExpression nm r)
  | .jsIdentifierExpression nm r, .jsUnaryExpression uop ur =>
    runTypeofIdentifier uop nm r (AnyJsExpression.jsUnaryExpression uop ur)
  | .jsUnaryExpression uop _, e =>
    runTypeofExpr uop e
  | e, .jsUnaryExpression uop _ =>
    runTypeofExpr uop e
  | _, _ => none

/-- `UseValidTypeof::run`. -/
def UseValidTypeof.run (n : JsBinaryExpression) : Option UseValidTypeofState :=
  match n.operator with
  | none => none
  | some op =>
    if isTypeofComparisonOperator op then
      match n.left, n.right with
      | some left, some right => runOnOperands left right
      | _, _ => none
    else none

/-- The diagnostic title `TITLE`. -/
def UseValidTypeof.title : String := "Invalid `typeof` comparison value"

/-- `UseValidTypeof::diagnostic`: total over states. -/
def UseValidTypeof.diagnostic (state : UseValidTypeofState) : Option RuleDiagnostic :=
  some (match state.1 with
  | .invalidLiteral range literal =>
    { range, message := title,
      notes := ["not a valid type name"],
      description := some (title ++ ": \"" ++ literal ++ "\" is not a valid type name") }
  | .invalidExpression range =>
    { range, message := title,
      notes := ["not a string literal"],
      description := some (title ++ ": this expression is not a string literal") })

/-- Caller-supplied quote preference (`ctx.as_preferred_quote()`). -/
inductive PreferredQuote where
  | double
  | single
  deriving DecidableEq

/-- `PreferredQuote::is_double`. -/
def PreferredQuote.isDouble : PreferredQuote → Bool
  | .double => true
  | .single => false

/-- `make::js_string_literal`: a detached double-quoted string token. -/
def makeJsStringLiteral (text : String) : JsSyntaxToken :=
  JsSyntaxToken.newDetached (doubleQuoteStr ++ text ++ doubleQuoteStr) [] []

/-- `make::js_string_literal_single_quotes`: single-quoted variant. -/
def makeJsStringLiteralSingleQuotes (text : String) : JsSyntaxToken :=
  JsSyntaxToken.newDetached (singleQuoteStr ++ text ++ singleQuoteStr) [] []

/-- `make::js_string_literal_expression` on a detached token. -/
def makeJsStringLiteralExpression (tok : JsSyntaxToken) : AnyJsLiteralExpression :=
  .jsStringLiteralExpression (some tok) ⟨0, 0⟩

/-- The typeof rule's action record: category, applicability, message and
the batch of recorded `(old, new)` expression replacements. -/
structure TypeofRuleAction where
  category : ActionCategory
  applicability : Applicability
  message : String
  mutation : List (AnyJsExpression × AnyJsExpression)
  deriving DecidableEq

/-- `UseValidTypeof::action`: `None` without a suggestion, otherwise one
recorded replacement of the suggested expression by a fresh string-literal
expression whose quotes follow the caller's preference. -/
def UseValidTypeof.action (preferredQuote : PreferredQuote)
    (state : UseValidTypeofState) : Option TypeofRuleAction :=
  match state.2 with
  | none => none
  | some (expr, typeName) =>
    some { category := .quickFix,
           applicability := .maybeIncorrect,
           message := "Compare the result of `typeof` with a valid type name",
           mutation := [(expr, AnyJsExpression.anyJsLiteralExpression
             (makeJsStringLiteralExpression
               (if preferredQuote.isDouble then makeJsStringLiteral typeName.asStr
                else makeJsStringLiteralSingleQuotes typeName.asStr)))] }

/-! ## JSX nodes (biome_js_syntax), as far as `UseSelfClosingElements`
reads them -/

/-- `AnyJsxElementName`, reduced to its token sequence (the rule passes the
name through unchanged and only its tokens matter for the derived
previous-token lookup). -/
structure AnyJsxElementName where
  tokens : List JsSyntaxToken
  deriving DecidableEq

/-- `TsTypeArguments`, reduced to its token sequence; passed through
unchanged by the rule. -/
structure TsTypeArguments where
  tokens : List JsSyntaxToken
  deriving DecidableEq

/-- One attribute of `JsxAttributeList`, reduced to its token sequence;
passed through unchanged by the rule. -/
structure JsxAttribute where
  tokens : List JsSyntaxToken
  deriving DecidableEq

/-- `JsxOpeningElement`, with the fallible slots `UseSelfClosingElements`
extracts. -/
structure JsxOpeningElement where
  lAngleToken : Option JsSyntaxToken
  name : Option AnyJsxElementName
  typeArguments : Option TsTypeArguments
  attributes : List JsxAttribute
  rAngleToken : Option JsSyntaxToken
  deriving DecidableEq

/-- The tokens of the opening element that precede its `>` token, in
document order. -/
def JsxOpeningElement.tokensBeforeRAngle (e : JsxOpeningElement) : List JsSyntaxToken :=
  e.lAngleToken.toList
    ++ (e.name.toList.flatMap AnyJsxElementName.tokens)
    ++ (e.typeArguments.toList.flatMap TsTypeArguments.tokens)
    ++ (e.attributes.flatMap JsxAttribute.tokens)

/-- `r_angle_token.prev_token()`: the previous token is a derived lookup;
within the element it is the last token before `>`, and `none` when the
element holds no earlier token. -/
def JsxOpeningElement.prevTokenOfRAngle (e : JsxOpeningElement) : Option JsSyntaxToken :=
  e.tokensBeforeRAngle.getLast?

/-- A child of a `JsxChildList`; the rule only tests the list for
emptiness, so one text-ish shape per child is enough. -/
inductive JsxChild where
  | text (token : JsSyntaxToken)
  | expressionChild (tokens : List JsSyntaxToken)
  deriving DecidableEq

/-- `JsxClosingElement`; read by no step of the rule (the rewrite drops
it), kept for the element's shape. -/
structure JsxClosingElement where
  lAngleToken : Option JsSyntaxToken
  slashToken : Option JsSyntaxToken
  name : Option AnyJsxElementName
  rAngleToken : Option JsSyntaxToken
  deriving DecidableEq

/-- `JsxElement`: opening element, children, closing element, and the
node's range (for the diagnostic). -/
structure JsxElement where
  openingElement : Option JsxOpeningElement
  children : List JsxChild
  closingElement : Option JsxClosingElement
  range : TextRange
  deriving DecidableEq

/-- `JsxSelfClosingElement` as the factory builds it. -/
structure JsxSelfClosingElement where
  lAngleToken : JsSyntaxToken
  name : AnyJsxElementName
  typeArguments : Option TsTypeArguments
  attributes : List JsxAttribute
  slashToken : JsSyntaxToken
  rAngleToken : JsSyntaxToken
  deriving DecidableEq

/-- `AnyJsxTag`: the node kinds a JSX tag position can hold.  The rule's
query filters for the `jsxElement` kind only. -/
inductive AnyJsxTag where
  | jsxElement (e : JsxElement)
  | jsxSelfClosingElement (e : JsxSelfClosingElement)
  | jsxFragment (children : List JsxChild)
  deriving DecidableEq

/-- `make::jsx_self_closing_element`: builder start, optional slots
empty. -/
def makeJsxSelfClosingElement (lAngle : JsSyntaxToken) (name : AnyJsxElementName)
    (attributes : List JsxAttribute) (slash : JsSyntaxToken)
    (rAngle : JsSyntaxToken) : JsxSelfClosingElement :=
  { lAngleToken := lAngle, name, typeArguments := none, attributes,
    slashToken := slash, rAngleToken := rAngle }

/-- The builder's `with_type_arguments`. -/
def JsxSelfClosingElement.withTypeArguments (e : JsxSelfClosingElement)
    (ta : TsTypeArguments) : JsxSelfClosingElement :=
  { e with typeArguments := some ta }

/-! ## `UseSelfClosingElements` -/

/-- `UseSelfClosingElements::run`: a result state exactly when the child
list is empty. -/
def UseSelfClosingElements.run (element : JsxElement) : Option Unit :=
  if element.children.isEmpty then some () else none

/-- `UseSelfClosingElements::diagnostic`: total over states. -/
def UseSelfClosingElements.diagnostic (element : JsxElement) (_ : Unit) :
    Option RuleDiagnostic :=
  some { range := element.range,
         message := "JSX elements without children should be marked as self-closing. In JSX, it is valid for any element to be self-closing.",
         notes := [], description := none }

/-- The self-closing rule's action record: category, applicability, message
and the batch of recorded `(old, new)` tag replacements. -/
structure SelfClosingRuleAction where
  category : ActionCategory
  applicability : Applicability
  message : String
  mutation : List (AnyJsxTag × AnyJsxTag)
  deriving DecidableEq

/-- `UseSelfClosingElements::action`, step for step: extract the opening
element and its `>` token, copy the `>` token's leading trivia onto the
synthesized `/` token, decide whether one synthetic space is needed
(leading trivia empty and the previous token's trailing trivia text does
not end with `' '`), drop the `>` token's leading trivia, build the
self-closing element through the factory, and record the one
replacement. -/
def UseSelfClosingElements.action (element : JsxElement) : Option SelfClosingRuleAction :=
  match element.openingElement with
  | none => none
  | some openElement =>
    match openElement.rAngleToken with
    | none => none
    | some rAngleTok =>
      let leadingTrivia := rAngleTok.leadingTrivia
      let prevToken := openElement.prevTokenOfRAngle
      let needExtraWhitespace : Bool :=
        match prevToken with
        | none => true
        | some token => !(strEndsWithChar (triviaText token.trailingTrivia) spaceChar)
      let rAngleTok2 := rAngleTok.withLeadingTrivia []
      let leadingTrivia2 :=
        if leadingTrivia.isEmpty && needExtraWhitespace then
          leadingTrivia ++ [TriviaPiece.whitespace1]
        else leadingTrivia
      match openElement.lAngleToken, openElement.name with
      | some lAngle, some nm =>
        let builder := makeJsxSelfClosingElement lAngle nm openElement.attributes
          (JsSyntaxToken.newDetached "/" leadingTrivia2 []) rAngleTok2
        let selfClosingElement :=
          match openElement.typeArguments with
          | some ta => builder.withTypeArguments ta
          | none => builder
        some { category := .quickFix,
               applicability := .maybeIncorrect,
               message := "Use a SelfClosingElement instead",
               mutation := [(AnyJsxTag.jsxElement element,
                 AnyJsxTag.jsxSelfClosingElement selfClosingElement)] }
      | _, _ => none

/-- The rule's query: of the JSX tag kinds, only `JsxElement` nodes
match. -/
def UseSelfClosingElements.queryMatch : AnyJsxTag → Option JsxElement
  | .jsxElement e => some e
  | _ => none

/-- One analysis step of the rule over a tag position: query filter, then
`run`. -/
def UseSelfClosingElements.analyzeTag (t : AnyJsxTag) : Option Unit :=
  (queryMatch t).bind run

/-! ## Observation helpers on action records -/

/-- The new tag recorded by a self-closing action's one replacement. -/
def selfClosingReplacement (a : SelfClosingRuleAction) : Option AnyJsxTag :=
  a.mutation.head?.map Prod.snd

/-- The leading trivia of the synthesized `/` token of a self-closing
action's replacement. -/
def replacementSlashTrivia (a : SelfClosingRuleAction) : Option (List TriviaPiece) :=
  match selfClosingReplacement a with
  | some (.jsxSelfClosingElement sc) => some sc.slashToken.leadingTrivia
  | _ => none

/-- The full text (trivia included) of the synthesized `/` token of a
self-closing action's replacement. -/
def replacementSlashText (a : SelfClosingRuleAction) : Option String :=
  match selfClosingReplacement a with
  | some (.jsxSelfClosingElement sc) => some sc.slashToken.fullText
  | _ => none

/-- The text of the replacement string-literal token recorded by a typeof
action. -/
def typeofReplacementText (a : TypeofRuleAction) : Option String :=
  match a.mutation with
  | [(_, .anyJsLiteralExpression (.jsStringLiteralExpression (some tok) _))] => some tok.text
  | _ => none

/-- The node a typeof action's one replacement removes. -/
def typeofReplacementTarget (a : TypeofRuleAction) : Option AnyJsExpression :=
  a.mutation.head?.map Prod.fst

/-- The quote character the caller's preference selects (the spec's
side of claim C9, stated independently of the factory helpers). -/
def quoteStr (q : PreferredQuote) : String :=
  if q.isDouble then doubleQuoteStr else singleQuoteStr

/-! ## Spec-side conditions for the whitespace claim -/

/-- The spec's reading of "whitespace already precedes the closing angle
bracket": a whitespace trivia piece among the `>` token's leading trivia,
or a whitespace character ending the previous token's trailing trivia. -/
def specWhitespacePrecedesRAngle (oe : JsxOpeningElement) (rA : JsSyntaxToken) : Bool :=
  rA.leadingTrivia.any (fun p => p.kind = TriviaPieceKind.whitespace) ||
    (match oe.prevTokenOfRAngle with
     | none => false
     | some tok =>
       match (triviaText tok.trailingTrivia).data.getLast? with
       | some c => c.isWhitespace
       | none => false)

/-- The condition under which the action inserts the synthetic space, as
the code computes it: the `>` token's leading trivia is empty, and there is
no previous token or its trailing trivia text does not end with `' '`. -/
def insertedSpaceCondition (oe : JsxOpeningElement) (rA : JsSyntaxToken) : Bool :=
  rA.leadingTrivia.isEmpty &&
    (match oe.prevTokenOfRAngle with
     | none => true
     | some token => !(strEndsWithChar (triviaText token.trailingTrivia) spaceChar))

/-! ## Concrete inputs for witnesses and counterexamples -/

/-- A token with the given trimmed text and range and no trivia. -/
def plainToken (text : String) (r : TextRange) : JsSyntaxToken :=
  { text, leadingTrivia := [], trailingTrivia := [], textTrimmedRange := r }

/-- `typeof foo` at bytes 0..10. -/
def typeofFooUnary : AnyJsExpression :=
  .jsUnaryExpression (some .typeof) ⟨0, 10⟩

/-- The value token of the literal `"String"`. -/
def stringCaseToken : JsSyntaxToken := plainToken "\"String\"" ⟨15, 23⟩

/-- `typeof foo === "String"`: a wrong-case spelling of a type name. -/
def typeofStringCaseExpr : JsBinaryExpression :=
  { left := some typeofFooUnary, operator := some .strictEquality,
    right := some (.anyJsLiteralExpression (.jsStringLiteralExpression (some stringCaseToken) ⟨15, 23⟩)) }

/-- The value token of the literal `"strnig"`. -/
def strnigToken : JsSyntaxToken := plainToken "\"strnig\"" ⟨15, 23⟩

/-- The bare identifier `undefined` at bytes 0..9. -/
def undefinedIdentExpr : AnyJsExpression :=
  .jsIdentifierExpression (some ⟨some (plainToken "undefined" ⟨0, 9⟩)⟩) ⟨0, 9⟩

/-- `typeof foo` at bytes 14..24. -/
def typeofFooUnaryRight : AnyJsExpression :=
  .jsUnaryExpression (some .typeof) ⟨14, 24⟩

/-- `undefined === typeof foo`: identifier on the left. -/
def identLeftTypeofRight : JsBinaryExpression :=
  { left := some undefinedIdentExpr, operator := some .strictEquality,
    right := some typeofFooUnaryRight }

/-- `typeof foo < "string"`: a non-comparison operator for the rule. -/
def typeofLessThanExpr : JsBinaryExpression :=
  { left := some typeofFooUnary, operator := some .lessThan,
    right := some (.anyJsLiteralExpression (.jsStringLiteralExpression (some (plainToken "\"string\"" ⟨13, 21⟩)) ⟨13, 21⟩)) }

/-- A typeof-rule state carrying a fix suggestion. -/
def suggestionState : UseValidTypeofState :=
  (TypeofError.invalidExpression ⟨0, 9⟩, some (undefinedIdentExpr, JsTypeName.undefined))

/-- A binary expression with every slot missing. -/
def allSlotsMissingBinary : JsBinaryExpression :=
  { left := none, operator := none, right := none }

/-- The `<` token of `<div></div>`. -/
def divLAngleToken : JsSyntaxToken := plainToken "<" ⟨0, 1⟩

/-- The `div` name token of `<div></div>`. -/
def divNameToken : JsSyntaxToken := plainToken "div" ⟨1, 4⟩

/-- The `>` token of the opening tag of `<div></div>`. -/
def divRAngleToken : JsSyntaxToken := plainToken ">" ⟨4, 5⟩

def divName : AnyJsxElementName := ⟨[divNameToken]⟩

/-- The `</div>` closing element of `<div></div>`. -/
def divClosingElement : JsxClosingElement :=
  { lAngleToken := some (plainToken "<" ⟨5, 6⟩),
    slashToken := some (plainToken "/" ⟨6, 7⟩),
    name := some ⟨[plainToken "div" ⟨7, 10⟩]⟩,
    rAngleToken := some (plainToken ">" ⟨10, 11⟩) }

/-- The opening tag `<div>` of `<div></div>`. -/
def divOpeningElement : JsxOpeningElement :=
  { lAngleToken := some divLAngleToken, name := some divName, typeArguments := none,
    attributes := [], rAngleToken := some divRAngleToken }

/-- `<div></div>`. -/
def divElement : JsxElement :=
  { openingElement := some divOpeningElement, children := [],
    closingElement := some divClosingElement, range := ⟨0, 11⟩ }

/-- The self-closing element the action builds for `divElement`. -/
def divSelfClosingElement : JsxSelfClosingElement :=
  { lAngleToken := divLAngleToken, name := divName, typeArguments := none,
    attributes := [],
    slashToken := ⟨"/", [TriviaPiece.whitespace1], [], ⟨0, 0⟩⟩,
    rAngleToken := plainToken ">" ⟨4, 5⟩ }

/-- The action record the rule produces for `divElement`. -/
def divSelfClosingAction : SelfClosingRuleAction :=
  { category := .quickFix, applicability := .maybeIncorrect,
    message := "Use a SelfClosingElement instead",
    mutation := [(AnyJsxTag.jsxElement divElement, AnyJsxTag.jsxSelfClosingElement divSelfClosingElement)] }

/-- The `div` name token of `<div\t></div>`: a tab as trailing trivia. -/
def tabDivNameToken : JsSyntaxToken :=
  ⟨"div", [], [⟨TriviaPieceKind.whitespace, "\t"⟩], ⟨1, 4⟩⟩

/-- The `>` token of the opening tag of `<div\t></div>`. -/
def tabDivRAngleToken : JsSyntaxToken := plainToken ">" ⟨5, 6⟩

/-- The opening tag of `<div\t></div>`. -/
def tabDivOpeningElement : JsxOpeningElement :=
  { lAngleToken := some divLAngleToken, name := some ⟨[tabDivNameToken]⟩,
    typeArguments := none, attributes := [], rAngleToken := some tabDivRAngleToken }

/-- `<div\t></div>`: a tab — whitespace, but not `' '` — before the `>`. -/
def tabDivElement : JsxElement :=
  { openingElement := some tabDivOpeningElement, children := [],
    closingElement := some divClosingElement, range := ⟨0, 12⟩ }

/-- A JSX element whose opening element cannot be extracted. -/
def noOpeningElement : JsxElement :=
  { openingElement := none, children := [], closingElement := none, range := ⟨0, 11⟩ }

/-- An opening tag missing its `>` token. -/
def noRAngleOpeningElement : JsxOpeningElement :=
  { lAngleToken := some divLAngleToken, name := some divName,
    typeArguments := none, attributes := [], rAngleToken := none }

/-- A JSX element whose opening tag misses its `>` token. -/
def noRAngleElement : JsxElement :=
  { openingElement := some noRAngleOpeningElement,
    children := [], closingElement := none, range := ⟨0, 11⟩ }

/-- The binary expression `typeof <expr> <op> <string literal>`. -/
def typeofLiteralBinary (op : JsBinaryOperator) (tok : JsSyntaxToken)
    (ur lr : TextRange) : JsBinaryExpression :=
  { left := some (.jsUnaryExpression (some .typeof) ur),
    operator := some op,
    right := some (.anyJsLiteralExpression (.jsStringLiteralExpression (some tok) lr)) }

/-- The binary expression `<string literal> <op> typeof <expr>`. -/
def literalTypeofBinary (op : JsBinaryOperator) (tok : JsSyntaxToken)
    (ur lr : TextRange) : JsBinaryExpression :=
  { left := some (.anyJsLiteralExpression (.jsStringLiteralExpression (some tok) lr)),
    operator := some op,
    right := some (.jsUnaryExpression (some .typeof) ur) }

/-! ## Helper lemmas -/

/-- `Char.toLower` is idempotent: lowering an already lowered character
changes nothing. -/
theorem charToLower_idem (c : Char) : c.toLower.toLower = c.toLower := by
  by_cases h : c.toNat ≥ 65 ∧ c.toNat ≤ 90
  · have hv : Nat.isValidChar (c.val.toNat + 32) := Or.inl (by
      have := h.2
      simp only [Char.toNat] at this
      omega)
    have h1 : c.toLower = Char.ofNat (c.toNat + 32) := by
      simp only [Char.toLower]
      rw [if_pos h]
    have ht : (Char.ofNat (c.toNat + 32)).toNat = c.toNat + 32 := by
      simp only [Char.ofNat, Char.ofNatAux, Char.toNat]
      rw [dif_pos hv]
      rfl
    rw [h1]
    simp only [Char.toLower]
    rw [if_neg (by rw [ht]; omega)]
  · have h1 : c.toLower = c := by
      simp only [Char.toLower]
      rw [if_neg h]
    rw [h1, h1]

/-- Lowercasing is idempotent. -/
theorem toLowercase_idem (s : String) : toLowercase (toLowercase s) = toLowercase s := by
  simp [toLowercase, List.map_map, Function.comp_def, charToLower_idem]

/-- Normal form of `UseSelfClosingElements.action` once the four fallible
slots are present: one recorded replacement of the element by the
self-closing element the factory builds, whose slash token carries the `>`
token's former leading trivia (plus the synthetic space exactly under
`insertedSpaceCondition`) and whose `>` token has lost its leading
trivia. -/
theorem UseSelfClosingElements.action_spec (e : JsxElement) (oe : JsxOpeningElement)
    (rA lA : JsSyntaxToken) (nm : AnyJsxElementName)
    (h1 : e.openingElement = some oe) (h2 : oe.rAngleToken = some rA)
    (h3 : oe.lAngleToken = some lA) (h4 : oe.name = some nm) :
    UseSelfClosingElements.action e = some
      { category := .quickFix, applicability := .maybeIncorrect,
        message := "Use a SelfClosingElement instead",
        mutation := [(AnyJsxTag.jsxElement e, AnyJsxTag.jsxSelfClosingElement
          { lAngleToken := lA, name := nm, typeArguments := oe.typeArguments,
            attributes := oe.attributes,
            slashToken := JsSyntaxToken.newDetached "/"
              (if insertedSpaceCondition oe rA then
                rA.leadingTrivia ++ [TriviaPiece.whitespace1]
              else rA.leadingTrivia) [],
            rAngleToken := rA.withLeadingTrivia [] })] } := by
  unfold UseSelfClosingElements.action
  simp only [h1, h2, h3, h4]
  cases hta : oe.typeArguments <;>
    simp [hta, makeJsxSelfClosingElement, JsxSelfClosingElement.withTypeArguments,
      insertedSpaceCondition]

/-! ## Claim theorems -/

/-- C5: the self-closing rule's analysis step produces a result state for a
matched JSX element if and only if the element's children list is empty;
elements with children yield no state. -/
theorem useSelfClosingElements_run_iff_childless (e : JsxElement) :
    (UseSelfClosingElements.run e).isSome = true ↔ e.children = [] := by
  cases h : e.children <;> simp [UseSelfClosingElements.run, h]

/-- C10: for every matched binary expression whose operator is not one of
`==`, `===`, `!=`, `!==`, the typeof rule's analysis step returns no result
state, so no diagnostic and no fix are produced for other operators. -/
theorem useValidTypeof_ignores_other_operators (n : JsBinaryExpression)
    (op : JsBinaryOperator) (hop : n.operator = some op)
    (h : isTypeofComparisonOperator op = false) :
    UseValidTypeof.run n = none := by
  unfold UseValidTypeof.run
  simp only [hop, h]
  simp

/-- Witness for C10: `typeof foo < "string"` is not reported. -/
theorem useValidTypeof_ignores_other_operators_witness :
    UseValidTypeof.run typeofLessThanExpr = none :=
  useValidTypeof_ignores_other_operators typeofLessThanExpr JsBinaryOperator.lessThan
    rfl rfl

/-- C7: when a required child or token is missing, the analysis step
returns no state and the action step returns no action — the match is
skipped, or only the fix is withdrawn while the diagnostic (total over
states) stands.  Covered slots: the binary expression's operator, left and
right operands; the string literal's value token; the JSX opening element;
its `>` token; its `<` token. -/
theorem rules_skip_malformed_matches :
    (∀ n : JsBinaryExpression, n.operator = none → UseValidTypeof.run n = none)
  ∧ (∀ n : JsBinaryExpression, n.left = none → UseValidTypeof.run n = none)
  ∧ (∀ n : JsBinaryExpression, n.right = none → UseValidTypeof.run n = none)
  ∧ (∀ (op : JsBinaryOperator) (ur lr : TextRange), UseValidTypeof.run
      { left := some (.jsUnaryExpression (some .typeof) ur), operator := some op,
        right := some (.anyJsLiteralExpression (.jsStringLiteralExpression none lr)) }
          = none)
  ∧ (∀ e : JsxElement, e.openingElement = none →
      UseSelfClosingElements.action e = none
        ∧ (UseSelfClosingElements.diagnostic e ()).isSome = true)
  ∧ (∀ (e : JsxElement) (oe : JsxOpeningElement), e.openingElement = some oe →
      oe.rAngleToken = none →
      UseSelfClosingElements.action e = none
        ∧ (UseSelfClosingElements.diagnostic e ()).isSome = true)
  ∧ (∀ (e : JsxElement) (oe : JsxOpeningElement) (rA : JsSyntaxToken),
      e.openingElement = some oe → oe.rAngleToken = some rA →
      oe.lAngleToken = none →
      UseSelfClosingElements.action e = none
        ∧ (UseSelfClosingElements.diagnostic e ()).isSome = true) := by
  refine ⟨?_, ?_, ?_, ?_, ?_, ?_, ?_⟩
  · intro n h
    unfold UseValidTypeof.run
    simp [h]
  · intro n h
    unfold UseValidTypeof.run
    cases hop : n.operator with
    | none => rfl
    | some op =>
      by_cases hc : isTypeofComparisonOperator op <;>
        cases hr : n.right <;> simp [hc, h, hr]
  · intro n h
    unfold UseValidTypeof.run
    cases hop : n.operator with
    | none => rfl
    | some op =>
      by_cases hc : isTypeofComparisonOperator op <;>
        cases hl : n.left <;> simp [hc, h, hl]
  · intro op ur lr
    unfold UseValidTypeof.run
    by_cases hc : isTypeofComparisonOperator op <;>
      simp [hc, UseValidTypeof.runOnOperands, UseValidTypeof.runTypeofLiteral]
  · intro e h
    refine ⟨?_, rfl⟩
    unfold UseSelfClosingElements.action
    simp [h]
  · intro e oe h1 h2
    refine ⟨?_, rfl⟩
    unfold UseSelfClosingElements.action
    simp [h1, h2]
  · intro e oe rA h1 h2 h3
    refine ⟨?_, rfl⟩
    unfold UseSelfClosingElements.action
    cases hnm : oe.name <;> simp [h1, h2, h3, hnm]

/-- Witness for C7: the all-slots-missing binary expression and the
opening-less and `>`-less JSX elements are skipped, the latter two with
their diagnostics standing. -/
theorem rules_skip_malformed_matches_witness :
    UseValidTypeof.run allSlotsMissingBinary = none
  ∧ (UseSelfClosingElements.action noOpeningElement = none
      ∧ (UseSelfClosingElements.diagnostic noOpeningElement ()).isSome = true)
  ∧ (UseSelfClosingElements.action noRAngleElement = none
      ∧ (UseSelfClosingElements.diagnostic noRAngleElement ()).isSome = true) :=
  ⟨rules_skip_malformed_matches.1 allSlotsMissingBinary rfl,
   rules_skip_malformed_matches.2.2.2.2.1 noOpeningElement rfl,
   rules_skip_malformed_matches.2.2.2.2.2.1 noRAngleElement noRAngleOpeningElement
     rfl rfl⟩

/-- C8: in both rules the diagnostic step returns `some` for every state,
so whenever the action step returns a fix, the diagnostic step reports a
finding for the same state — a fix is never offered without a
diagnostic. -/
theorem fixes_only_beside_diagnostics :
    (∀ s : UseValidTypeofState, (UseValidTypeof.diagnostic s).isSome = true)
  ∧ (∀ (e : JsxElement) (st : Unit),
      (UseSelfClosingElements.diagnostic e st).isSome = true)
  ∧ (∀ (q : PreferredQuote) (s : UseValidTypeofState) (a : TypeofRuleAction),
      UseValidTypeof.action q s = some a →
        (UseValidTypeof.diagnostic s).isSome = true)
  ∧ (∀ (e : JsxElement) (st : Unit) (a : SelfClosingRuleAction),
      UseSelfClosingElements.action e = some a →
        (UseSelfClosingElements.diagnostic e st).isSome = true) :=
  ⟨fun _ => rfl, fun _ _ => rfl, fun _ _ _ _ => rfl, fun _ _ _ _ => rfl⟩

/-- Witness for C8: a concrete fix-producing state of the typeof rule and
the `<div></div>` action both come with a reported diagnostic. -/
theorem fixes_only_beside_diagnostics_witness :
    (UseValidTypeof.diagnostic suggestionState).isSome = true
  ∧ (UseSelfClosingElements.diagnostic divElement ()).isSome = true :=
  ⟨fixes_only_beside_diagnostics.2.2.1 PreferredQuote.double suggestionState
      { category := .quickFix, applicability := .maybeIncorrect,
        message := "Compare the result of `typeof` with a valid type name",
        mutation := [(undefinedIdentExpr, AnyJsExpression.anyJsLiteralExpression
          (makeJsStringLiteralExpression (makeJsStringLiteral JsTypeName.undefined.asStr)))] }
      (by decide),
   fixes_only_beside_diagnostics.2.2.2 divElement () divSelfClosingAction (by decide)⟩

/-- C2 (failing input): on `undefined === typeof foo` — identifier on the
left — the rule diagnoses at the identifier's range `0..9`, but the fix
suggestion pairs the `typeof` unary expression (range `14..24`), not the
identifier, as the node to replace: the action rewrites `typeof foo` into
`"undefined"` instead of rewriting the identifier. -/
theorem useValidTypeof_identifier_order_swaps_fix_target :
    UseValidTypeof.run identLeftTypeofRight
      = some (TypeofError.invalidExpression ⟨0, 9⟩,
          some (typeofFooUnaryRight, JsTypeName.undefined))
  ∧ typeofFooUnaryRight
      = AnyJsExpression.jsUnaryExpression (some JsUnaryOperator.typeof) ⟨14, 24⟩
  ∧ (UseValidTypeof.action PreferredQuote.double
        (TypeofError.invalidExpression ⟨0, 9⟩,
         some (typeofFooUnaryRight, JsTypeName.undefined))).bind typeofReplacementTarget
      = some typeofFooUnaryRight := by
  refine ⟨by decide, rfl, by decide⟩

/-- C1 counterexample: on `typeof foo === "String"` the literal's content
with quotes stripped, `String`, is not a known type name (the vocabulary is
lower-case), so the claim demands an invalid-literal diagnostic with a
casing fix — but the rule lowers the literal before validating it and
reports nothing at all. -/
theorem useValidTypeof_wrong_case_literal_unreported :
    UseValidTypeof.run typeofStringCaseExpr = none
  ∧ JsTypeName.fromStr "String" = none
  ∧ JsTypeName.fromStr (toLowercase "String") = some JsTypeName.string := by
  refine ⟨by decide, by decide, by decide⟩

/-- C1 (amended): for a comparison of a `typeof` unary expression against a
string literal, in either operand order, the rule reports no diagnostic iff
the literal's quote-stripped and then *lowercased* content is a known type
name; otherwise it reports the invalid-literal state with the lowered
content and never carries a fix suggestion (the suggestion lookup re-lowers
the already lowered literal, so it can only find what the earlier check
already excluded). -/
theorem useValidTypeof_literal_classification (op : JsBinaryOperator)
    (tok : JsSyntaxToken) (ur lr : TextRange)
    (hop : isTypeofComparisonOperator op = true) :
    (UseValidTypeof.run (typeofLiteralBinary op tok ur lr)
      = if (JsTypeName.fromStr (toLowercase (trimMatchesQuotes tok.text))).isSome
        then none
        else some (TypeofError.invalidLiteral tok.textTrimmedRange
            (toLowercase (trimMatchesQuotes tok.text)), none))
  ∧ (UseValidTypeof.run (literalTypeofBinary op tok ur lr)
      = if (JsTypeName.fromStr (toLowercase (trimMatchesQuotes tok.text))).isSome
        then none
        else some (TypeofError.invalidLiteral tok.textTrimmedRange
            (toLowercase (trimMatchesQuotes tok.text)), none)) := by
  have key : UseValidTypeof.runTypeofLiteral (some JsUnaryOperator.typeof)
      (AnyJsLiteralExpression.jsStringLiteralExpression (some tok) lr)
      = if (JsTypeName.fromStr (toLowercase (trimMatchesQuotes tok.text))).isSome
        then none
        else some (TypeofError.invalidLiteral tok.textTrimmedRange
            (toLowercase (trimMatchesQuotes tok.text)), none) := by
    unfold UseValidTypeof.runTypeofLiteral
    cases hf : JsTypeName.fromStr (toLowercase (trimMatchesQuotes tok.text)) with
    | some tn => simp [hf]
    | none => simp [hf, toLowercase_idem]
  constructor
  · rw [show UseValidTypeof.run (typeofLiteralBinary op tok ur lr)
        = if isTypeofComparisonOperator op then
            UseValidTypeof.runTypeofLiteral (some JsUnaryOperator.typeof)
              (AnyJsLiteralExpression.jsStringLiteralExpression (some tok) lr)
          else none from rfl, hop]
    simpa using key
  · rw [show UseValidTypeof.run (literalTypeofBinary op tok ur lr)
        = if isTypeofComparisonOperator op then
            UseValidTypeof.runTypeofLiteral (some JsUnaryOperator.typeof)
              (AnyJsLiteralExpression.jsStringLiteralExpression (some tok) lr)
          else none from rfl, hop]
    simpa using key

/-- Witness for C1: on `typeof foo === "strnig"` (and the mirrored operand
order) the right-hand side of the amended equation is reached with its
hypothesis discharged at a concrete operator. -/
theorem useValidTypeof_literal_classification_witness :
    (UseValidTypeof.run
        (typeofLiteralBinary JsBinaryOperator.strictEquality strnigToken ⟨0, 10⟩ ⟨15, 23⟩)
      = if (JsTypeName.fromStr (toLowercase (trimMatchesQuotes strnigToken.text))).isSome
        then none
        else some (TypeofError.invalidLiteral strnigToken.textTrimmedRange
            (toLowercase (trimMatchesQuotes strnigToken.text)), none))
  ∧ (UseValidTypeof.run
        (literalTypeofBinary JsBinaryOperator.strictEquality strnigToken ⟨0, 10⟩ ⟨15, 23⟩)
      = if (JsTypeName.fromStr (toLowercase (trimMatchesQuotes strnigToken.text))).isSome
        then none
        else some (TypeofError.invalidLiteral strnigToken.textTrimmedRange
            (toLowercase (trimMatchesQuotes strnigToken.text)), none)) :=
  useValidTypeof_literal_classification JsBinaryOperator.strictEquality strnigToken
    ⟨0, 10⟩ ⟨15, 23⟩ rfl

/-- C3 counterexample: in `<div\t></div>` whitespace (a tab) ends the
previous token's trailing trivia, so by the claim no space may be inserted
— yet the fix's slash token carries one synthetic space, because the code
only tests for the character `' '`. -/
theorem useSelfClosingElements_space_despite_whitespace :
    specWhitespacePrecedesRAngle tabDivOpeningElement tabDivRAngleToken = true
  ∧ (UseSelfClosingElements.action tabDivElement).bind replacementSlashTrivia
      = some [TriviaPiece.whitespace1] := by
  refine ⟨by decide, by decide⟩

/-- C3 (amended): the fix inserts exactly one synthetic space before the
synthesized slash token iff the `>` token's leading trivia is empty and
there is no previous token or its trailing trivia text does not end with
the space character `' '` (`insertedSpaceCondition`); when it inserts, the
slash token's leading trivia is exactly one one-space piece — never
two. -/
theorem useSelfClosingElements_space_insertion_condition (e : JsxElement)
    (oe : JsxOpeningElement) (rA lA : JsSyntaxToken) (nm : AnyJsxElementName)
    (h1 : e.openingElement = some oe) (h2 : oe.rAngleToken = some rA)
    (h3 : oe.lAngleToken = some lA) (h4 : oe.name = some nm) :
    (UseSelfClosingElements.action e).bind replacementSlashTrivia
      = some (if insertedSpaceCondition oe rA then
          rA.leadingTrivia ++ [TriviaPiece.whitespace1]
        else rA.leadingTrivia)
  ∧ (insertedSpaceCondition oe rA = true →
      (UseSelfClosingElements.action e).bind replacementSlashTrivia
        = some [TriviaPiece.whitespace1])
  ∧ (insertedSpaceCondition oe rA = false →
      (UseSelfClosingElements.action e).bind replacementSlashTrivia
        = some rA.leadingTrivia) := by
  have ha := UseSelfClosingElements.action_spec e oe rA lA nm h1 h2 h3 h4
  have hslash : (UseSelfClosingElements.action e).bind replacementSlashTrivia
      = some (if insertedSpaceCondition oe rA then
          rA.leadingTrivia ++ [TriviaPiece.whitespace1]
        else rA.leadingTrivia) := by
    rw [ha]
    by_cases hc : insertedSpaceCondition oe rA <;>
      simp [hc, replacementSlashTrivia, selfClosingReplacement, JsSyntaxToken.newDetached]
  refine ⟨hslash, ?_, ?_⟩
  · intro hc
    have hE : rA.leadingTrivia = [] := by
      simp [insertedSpaceCondition] at hc
      exact hc.1
    rw [hslash]
    simp [hc, hE]
  · intro hc
    rw [hslash]
    simp [hc]

/-- Witness for C3: for `<div></div>` the hypotheses hold concretely and the
condition decides the inserted space. -/
theorem useSelfClosingElements_space_insertion_condition_witness :
    (UseSelfClosingElements.action divElement).bind replacementSlashTrivia
      = some (if insertedSpaceCondition divOpeningElement divRAngleToken then
          divRAngleToken.leadingTrivia ++ [TriviaPiece.whitespace1]
        else divRAngleToken.leadingTrivia)
  ∧ (insertedSpaceCondition divOpeningElement divRAngleToken = true →
      (UseSelfClosingElements.action divElement).bind replacementSlashTrivia
        = some [TriviaPiece.whitespace1])
  ∧ (insertedSpaceCondition divOpeningElement divRAngleToken = false →
      (UseSelfClosingElements.action divElement).bind replacementSlashTrivia
        = some divRAngleToken.leadingTrivia) :=
  useSelfClosingElements_space_insertion_condition divElement divOpeningElement
    divRAngleToken divLAngleToken divName rfl rfl rfl rfl

/-- C4: every leading trivia piece of the opening tag's `>` token is moved
exactly once onto the synthesized `/` token — the slash's leading trivia is
the `>` token's former list (or that empty list plus the one synthetic
space) — and the replacement's `>` token keeps its text and trailing trivia
but has lost its leading trivia: nothing is duplicated or dropped. -/
theorem useSelfClosingElements_trivia_transfer (e : JsxElement)
    (oe : JsxOpeningElement) (rA lA : JsSyntaxToken) (nm : AnyJsxElementName)
    (h1 : e.openingElement = some oe) (h2 : oe.rAngleToken = some rA)
    (h3 : oe.lAngleToken = some lA) (h4 : oe.name = some nm) :
    ∃ sc : JsxSelfClosingElement,
      UseSelfClosingElements.action e = some
        { category := .quickFix, applicability := .maybeIncorrect,
          message := "Use a SelfClosingElement instead",
          mutation := [(AnyJsxTag.jsxElement e, AnyJsxTag.jsxSelfClosingElement sc)] }
      ∧ sc.rAngleToken.leadingTrivia = []
      ∧ sc.rAngleToken.text = rA.text
      ∧ sc.rAngleToken.trailingTrivia = rA.trailingTrivia
      ∧ (sc.slashToken.leadingTrivia = rA.leadingTrivia
          ∨ (rA.leadingTrivia = []
              ∧ sc.slashToken.leadingTrivia = [TriviaPiece.whitespace1])) := by
  refine ⟨_, UseSelfClosingElements.action_spec e oe rA lA nm h1 h2 h3 h4,
    rfl, rfl, rfl, ?_⟩
  by_cases hc : insertedSpaceCondition oe rA
  · have hE : rA.leadingTrivia = [] := by
      simp [insertedSpaceCondition] at hc
      exact hc.1
    right
    simp [JsSyntaxToken.newDetached, hc, hE]
  · left
    simp [JsSyntaxToken.newDetached, hc]

/-- Witness for C4: the transfer facts at `<div></div>`. -/
theorem useSelfClosingElements_trivia_transfer_witness :
    ∃ sc : JsxSelfClosingElement,
      UseSelfClosingElements.action divElement = some
        { category := .quickFix, applicability := .maybeIncorrect,
          message := "Use a SelfClosingElement instead",
          mutation := [(AnyJsxTag.jsxElement divElement,
            AnyJsxTag.jsxSelfClosingElement sc)] }
      ∧ sc.rAngleToken.leadingTrivia = []
      ∧ sc.rAngleToken.text = divRAngleToken.text
      ∧ sc.rAngleToken.trailingTrivia = divRAngleToken.trailingTrivia
      ∧ (sc.slashToken.leadingTrivia = divRAngleToken.leadingTrivia
          ∨ (divRAngleToken.leadingTrivia = []
              ∧ sc.slashToken.leadingTrivia = [TriviaPiece.whitespace1])) :=
  useSelfClosingElements_trivia_transfer divElement divOpeningElement
    divRAngleToken divLAngleToken divName rfl rfl rfl rfl

/-- C6: every action the self-closing rule returns records exactly one
replacement, from the matched `JsxElement` to a `JsxSelfClosingElement`;
the rule's query does not match the replacement node, so re-running the
analysis pass on the fixed tree yields no further match for that element —
the fix is a fixed point after one application. -/
theorem useSelfClosingElements_fixed_point (e : JsxElement)
    (a : SelfClosingRuleAction) (h : UseSelfClosingElements.action e = some a) :
    ∃ sc : JsxSelfClosingElement,
      a.mutation = [(AnyJsxTag.jsxElement e, AnyJsxTag.jsxSelfClosingElement sc)]
      ∧ UseSelfClosingElements.queryMatch (AnyJsxTag.jsxSelfClosingElement sc) = none
      ∧ UseSelfClosingElements.analyzeTag (AnyJsxTag.jsxSelfClosingElement sc) = none := by
  cases hoe : e.openingElement with
  | none =>
    unfold UseSelfClosingElements.action at h
    simp [hoe] at h
  | some oe =>
    cases hra : oe.rAngleToken with
    | none =>
      unfold UseSelfClosingElements.action at h
      simp [hoe, hra] at h
    | some rA =>
      cases hla : oe.lAngleToken with
      | none =>
        unfold UseSelfClosingElements.action at h
        simp [hoe, hra, hla] at h
      | some lA =>
        cases hnm : oe.name with
        | none =>
          unfold UseSelfClosingElements.action at h
          simp [hoe, hra, hla, hnm] at h
        | some nm =>
          rw [UseSelfClosingElements.action_spec e oe rA lA nm hoe hra hla hnm] at h
          have hrec := Option.some.inj h
          subst hrec
          exact ⟨_, rfl, rfl, rfl⟩

/-- Witness for C6: the `<div></div>` action's replacement is no longer
matched. -/
theorem useSelfClosingElements_fixed_point_witness :
    ∃ sc : JsxSelfClosingElement,
      divSelfClosingAction.mutation
        = [(AnyJsxTag.jsxElement divElement, AnyJsxTag.jsxSelfClosingElement sc)]
      ∧ UseSelfClosingElements.queryMatch (AnyJsxTag.jsxSelfClosingElement sc) = none
      ∧ UseSelfClosingElements.analyzeTag (AnyJsxTag.jsxSelfClosingElement sc) = none :=
  useSelfClosingElements_fixed_point divElement divSelfClosingAction (by decide)

/-- C9: whenever the typeof rule's state carries a suggestion, the action's
recorded replacement is a string literal of the suggested type name whose
quotes follow the caller-supplied preference — double quotes iff the
preferred quote style is double, single quotes otherwise — and the node
replaced is the suggested expression. -/
theorem useValidTypeof_action_quote_preference (q : PreferredQuote)
    (s : UseValidTypeofState) (expr : AnyJsExpression) (tn : JsTypeName)
    (h : s.2 = some (expr, tn)) :
    (UseValidTypeof.action q s).bind typeofReplacementText
      = some (quoteStr q ++ tn.asStr ++ quoteStr q)
  ∧ (UseValidTypeof.action q s).bind typeofReplacementTarget = some expr := by
  obtain ⟨err, sugg⟩ := s
  simp only at h
  subst h
  cases q <;>
    simp [UseValidTypeof.action, typeofReplacementText, typeofReplacementTarget,
      quoteStr, PreferredQuote.isDouble, makeJsStringLiteral,
      makeJsStringLiteralSingleQuotes, makeJsStringLiteralExpression,
      JsSyntaxToken.newDetached]

/-- Witness for C9: the single-quote preference on a concrete suggestion
state. -/
theorem useValidTypeof_action_quote_preference_witness :
    (UseValidTypeof.action PreferredQuote.single suggestionState).bind
        typeofReplacementText
      = some (quoteStr PreferredQuote.single ++ JsTypeName.undefined.asStr
          ++ quoteStr PreferredQuote.single)
  ∧ (UseValidTypeof.action PreferredQuote.single suggestionState).bind
        typeofReplacementTarget
      = some undefinedIdentExpr :=
  useValidTypeof_action_quote_preference PreferredQuote.single suggestionState
    undefinedIdentExpr JsTypeName.undefined rfl

end Biome
